import Mathlib

/-!
Verification of the `SceneManager` renderer core
(`Source/SceneManager.cpp`): texture registry, material registry,
transform composer, shader-state facade and the fixed scene script.

The C++ methods are embedded shallowly: float arithmetic is modelled over
an arbitrary field `K`, with the trigonometric and square-root routines of
`<cmath>`/glm abstracted as function parameters `c` (cos), `s` (sin) and
`q` (sqrt); member-mutating methods are state-passing functions on
`SceneState`; calls into OpenGL and into the `ShaderManager` uniform
setters are recorded as an ordered trace of `Cmd` values.
-/

namespace SceneMgr

/-- `glm::vec3`: three scalar components. -/
structure Vec3 (K : Type) where
  x : K
  y : K
  z : K
  deriving DecidableEq, Repr

/-- `glm::vec4`: four scalar components. -/
structure Vec4 (K : Type) where
  x : K
  y : K
  z : K
  w : K
  deriving DecidableEq, Repr

/-- `glm::mat4`, viewed as a mathematical 4×4 matrix: entry `(r, c)` of the
Lean matrix is glm's column-major `M[c][r]`. -/
abbrev Mat4 (K : Type) := Matrix (Fin 4) (Fin 4) K

section Glm

variable {K : Type} [Field K]

/-- `glm::radians(degrees) = degrees * (pi / 180)`; `piK` stands for the
float constant `pi`. -/
def radians (piK : K) (degrees : K) : K := degrees * (piK / 180)

/-- `glm::dot(v, v)` for a `vec3`. -/
def dotSelf (v : Vec3 K) : K := v.x * v.x + v.y * v.y + v.z * v.z

/-- `glm::normalize(v) = v * inversesqrt(dot(v, v))`, with `q` standing for
the square-root routine. -/
def glmNormalize (q : K → K) (v : Vec3 K) : Vec3 K :=
  let invLen : K := 1 / q (dotSelf v)
  ⟨v.x * invLen, v.y * invLen, v.z * invLen⟩

/-- `glm::scale(v)`: diagonal scaling matrix. -/
def glmScale (v : Vec3 K) : Mat4 K :=
  !![v.x, 0, 0, 0;
     0, v.y, 0, 0;
     0, 0, v.z, 0;
     0, 0, 0, 1]

/-- `glm::translate(v)`: identity with translation column `(x, y, z, 1)`. -/
def glmTranslate (v : Vec3 K) : Mat4 K :=
  !![1, 0, 0, v.x;
     0, 1, 0, v.y;
     0, 0, 1, v.z;
     0, 0, 0, 1]

/-- `glm::rotate(angle, v)` (gtx/transform, applied to the identity):
normalizes the axis and builds the Rodrigues rotation matrix exactly as in
glm's `rotate(mat4(1), angle, v)`; `c`, `s`, `q` stand for cos, sin, sqrt. -/
def glmRotate (c s q : K → K) (angle : K) (v : Vec3 K) : Mat4 K :=
  let co := c angle
  let si := s angle
  let axis := glmNormalize q v
  let tx := (1 - co) * axis.x
  let ty := (1 - co) * axis.y
  let tz := (1 - co) * axis.z
  !![co + tx * axis.x,  ty * axis.x - si * axis.z,  tz * axis.x + si * axis.y, 0;
     tx * axis.y + si * axis.z,  co + ty * axis.y,  tz * axis.y - si * axis.x, 0;
     tx * axis.z - si * axis.y,  ty * axis.z + si * axis.x,  co + tz * axis.z, 0;
     0, 0, 0, 1]

/-- `SetTransformations`' composed model matrix, line for line from the
source: `scale`, the three axis rotations of the degree angles converted by
`glm::radians`, `translation`, combined as
`translation * rotationZ * rotationY * rotationX * scale`. -/
def setTransformationsMatrix (c s q : K → K) (piK : K)
    (scaleXYZ : Vec3 K)
    (XrotationDegrees YrotationDegrees ZrotationDegrees : K)
    (positionXYZ : Vec3 K) : Mat4 K :=
  let scale := glmScale scaleXYZ
  let rotationX := glmRotate c s q (radians piK XrotationDegrees) ⟨1, 0, 0⟩
  let rotationY := glmRotate c s q (radians piK YrotationDegrees) ⟨0, 1, 0⟩
  let rotationZ := glmRotate c s q (radians piK ZrotationDegrees) ⟨0, 0, 1⟩
  let translation := glmTranslate positionXYZ
  translation * rotationZ * rotationY * rotationX * scale

end Glm

section SpecMatrices

variable {K : Type} [Field K]

/-- Modelled from the spec's words: `Translate(T)`, the standard
homogeneous translation matrix. -/
def specTranslate (v : Vec3 K) : Mat4 K :=
  !![1, 0, 0, v.x;
     0, 1, 0, v.y;
     0, 0, 1, v.z;
     0, 0, 0, 1]

/-- Modelled from the spec's words: `Scale(S)`, the standard homogeneous
scaling matrix. -/
def specScale (v : Vec3 K) : Mat4 K :=
  !![v.x, 0, 0, 0;
     0, v.y, 0, 0;
     0, 0, v.z, 0;
     0, 0, 0, 1]

/-- Modelled from the spec's words: `RotateX(angle)`, the standard rotation
about the X axis (`c`, `s` stand for cos, sin). -/
def specRotateX (c s : K → K) (angle : K) : Mat4 K :=
  !![1, 0, 0, 0;
     0, c angle, -(s angle), 0;
     0, s angle, c angle, 0;
     0, 0, 0, 1]

/-- Modelled from the spec's words: `RotateY(angle)`, the standard rotation
about the Y axis. -/
def specRotateY (c s : K → K) (angle : K) : Mat4 K :=
  !![c angle, 0, s angle, 0;
     0, 1, 0, 0;
     -(s angle), 0, c angle, 0;
     0, 0, 0, 1]

/-- Modelled from the spec's words: `RotateZ(angle)`, the standard rotation
about the Z axis. -/
def specRotateZ (c s : K → K) (angle : K) : Mat4 K :=
  !![c angle, -(s angle), 0, 0;
     s angle, c angle, 0, 0;
     0, 0, 1, 0;
     0, 0, 0, 1]

end SpecMatrices


/-! ## Data model: registries, scene state, recorded GL / shader commands -/

/-- One entry of the texture registry `m_textureIDs` (a tag string and the
OpenGL texture handle `ID`); its position in the registry is its slot. -/
structure TextureEntry where
  tag : String
  ID : Nat
  deriving DecidableEq, Repr

/-- `OBJECT_MATERIAL`: the fields the source reads and writes
(`diffuseColor`, `specularColor`, `shininess`, `tag`). -/
structure OBJECT_MATERIAL (K : Type) where
  diffuseColor : Vec3 K
  specularColor : Vec3 K
  shininess : K
  tag : String
  deriving DecidableEq, Repr

/-- The mutable members of `SceneManager` the verified methods touch:
`m_textureIDs` together with `m_loadedTextures` (as a list whose length is
the count), `m_objectMaterials`, and whether `m_pShaderManager` is
non-null. -/
structure SceneState (K : Type) where
  textureIDs : List TextureEntry
  objectMaterials : List (OBJECT_MATERIAL K)
  hasShader : Bool
  deriving Repr

/-- One observable call into OpenGL or into the `ShaderManager` uniform
setters; method bodies are embedded as the ordered list of these they
issue. -/
inductive Cmd (K : Type) where
  | setMat4 (uniformName : String) (value : Mat4 K)
  | setInt (uniformName : String) (value : Int)
  | setVec4 (uniformName : String) (value : Vec4 K)
  | setVec3 (uniformName : String) (value : Vec3 K)
  | setVec2 (uniformName : String) (u v : K)
  | setFloat (uniformName : String) (value : K)
  | setSampler2D (uniformName : String) (slot : Int)
  | activeTexture (unit : Nat)
  | bindTexture2D (textureID : Nat)
  | genTextures (n : Nat)
  | deleteTextures (textureID : Nat)
  | drawPlane
  | drawBox
  | drawBoxLines
  | drawCylinder
  | drawCylinderLines
  | drawHalfSphere
  | drawHalfSphereLines

/-- The anonymous-namespace uniform name `g_ModelName = "model"`. -/
def g_ModelName : String := "model"

/-- `g_ColorValueName = "objectColor"`. -/
def g_ColorValueName : String := "objectColor"

/-- `g_TextureValueName = "objectTexture"`. -/
def g_TextureValueName : String := "objectTexture"

/-- `g_UseTextureName = "bUseTexture"`. -/
def g_UseTextureName : String := "bUseTexture"

/-! ## Texture registry -/

/-- The decoded outputs of `stbi_load`: width, height, channel count. A
file that cannot be decoded is modelled as `none` at the call site. -/
structure ImageData where
  width : Nat
  height : Nat
  colorChannels : Nat
  deriving DecidableEq, Repr

section Registry

variable {K : Type} [Field K]

/-- `CreateGLTexture(filename, tag)`: `image` is `stbi_load`'s result for
the file, `textureID` the handle `glGenTextures` produces. On a decodable
image with 3 (RGB) or 4 (RGBA) channels the texture is uploaded and the
entry appended at `m_textureIDs[m_loadedTextures]` (then the count is
incremented); any other channel count and a failed decode return `false`
without touching the registry. -/
def CreateGLTexture (st : SceneState K) (image : Option ImageData)
    (textureID : Nat) (tag : String) : Bool × SceneState K :=
  match image with
  | some data =>
    if data.colorChannels = 3 then
      (true, { st with textureIDs := st.textureIDs ++ [⟨tag, textureID⟩] })
    else if data.colorChannels = 4 then
      (true, { st with textureIDs := st.textureIDs ++ [⟨tag, textureID⟩] })
    else
      (false, st)
  | none => (false, st)

/-- The loop of `BindGLTextures`: for `i` from `0` to `m_loadedTextures`,
`glActiveTexture(GL_TEXTURE0 + i); glBindTexture(GL_TEXTURE_2D, ID[i])`. -/
def bindGLTexturesLoop (K : Type) : Nat → List TextureEntry → List (Cmd K)
  | _, [] => []
  | i, entry :: rest =>
    Cmd.activeTexture i :: Cmd.bindTexture2D entry.ID :: bindGLTexturesLoop K (i + 1) rest

/-- `BindGLTextures()`: binds every registered texture to the texture unit
of its registry index. -/
def BindGLTextures (st : SceneState K) : List (Cmd K) :=
  bindGLTexturesLoop K 0 st.textureIDs

/-- `DestroyGLTextures()`: for each registered entry the source executes
`glGenTextures(1, &m_textureIDs[i].ID)` — it generates a fresh texture
name into the entry (the `gen` parameter supplies the names OpenGL would
return) and never calls `glDeleteTextures`. -/
def DestroyGLTextures (st : SceneState K) (gen : Nat → Nat) :
    SceneState K × List (Cmd K) :=
  ({ st with textureIDs := st.textureIDs.enum.map fun p => { p.2 with ID := gen p.1 } },
   st.textureIDs.map fun _ => Cmd.genTextures 1)

/-- The while loop of `FindTextureID`: first entry whose tag compares
equal wins; `-1` if the scan runs out. -/
def findTextureIDLoop (tag : String) : List TextureEntry → Int
  | [] => -1
  | entry :: rest =>
    if entry.tag = tag then (entry.ID : Int) else findTextureIDLoop tag rest

/-- `FindTextureID(tag)`. -/
def FindTextureID (st : SceneState K) (tag : String) : Int :=
  findTextureIDLoop tag st.textureIDs

/-- The while loop of `FindTextureSlot`, with the running `index`. -/
def findTextureSlotLoop (tag : String) : List TextureEntry → Nat → Int
  | [], _ => -1
  | entry :: rest, index =>
    if entry.tag = tag then (index : Int) else findTextureSlotLoop tag rest (index + 1)

/-- `FindTextureSlot(tag)`. -/
def FindTextureSlot (st : SceneState K) (tag : String) : Int :=
  findTextureSlotLoop tag st.textureIDs 0

end Registry

/-! ## Material registry -/

section Materials

variable {K : Type} [Field K]

/-- The while loop of `FindMaterial`: at the first entry whose tag matches
it copies `diffuseColor`, `specularColor` and `shininess` (not `tag`) into
the reference parameter and stops; otherwise the parameter is left as the
caller supplied it. -/
def findMaterialLoop (tag : String) :
    List (OBJECT_MATERIAL K) → OBJECT_MATERIAL K → OBJECT_MATERIAL K
  | [], material => material
  | entry :: rest, material =>
    if entry.tag = tag then
      { material with
          diffuseColor := entry.diffuseColor
          specularColor := entry.specularColor
          shininess := entry.shininess }
    else findMaterialLoop tag rest material

/-- `FindMaterial(tag, material&)`: returns `false` at once when
`m_objectMaterials.size() == 0`; otherwise runs the scan loop and returns
`true` whether or not the tag was found. The returned pair is (return
value, final value of the reference parameter). -/
def FindMaterial (st : SceneState K) (tag : String)
    (material : OBJECT_MATERIAL K) : Bool × OBJECT_MATERIAL K :=
  if st.objectMaterials.length = 0 then
    (false, material)
  else
    (true, findMaterialLoop tag st.objectMaterials material)

end Materials

/-! ## Shader state facade -/

section Facade

variable {K : Type} [Field K]

/-- `SetTransformations(...)`: composes the model matrix and, when
`m_pShaderManager` is non-null, pushes it as uniform `g_ModelName`. -/
def SetTransformations (c s q : K → K) (piK : K) (st : SceneState K)
    (scaleXYZ : Vec3 K) (XrotationDegrees YrotationDegrees ZrotationDegrees : K)
    (positionXYZ : Vec3 K) : List (Cmd K) :=
  if st.hasShader then
    [Cmd.setMat4 g_ModelName
      (setTransformationsMatrix c s q piK scaleXYZ
        XrotationDegrees YrotationDegrees ZrotationDegrees positionXYZ)]
  else []

/-- `SetShaderColor(r, g, b, a)`: when the shader manager is non-null,
pushes `bUseTexture = false` (the bool converts to int `0`) and the RGBA
color. -/
def SetShaderColor (st : SceneState K) (redColorValue greenColorValue
    blueColorValue alphaValue : K) : List (Cmd K) :=
  let currentColor : Vec4 K := ⟨redColorValue, greenColorValue, blueColorValue, alphaValue⟩
  if st.hasShader then
    [Cmd.setInt g_UseTextureName 0,
     Cmd.setVec4 g_ColorValueName currentColor]
  else []

/-- `SetShaderTexture(textureTag)`: when the shader manager is non-null,
pushes `bUseTexture = true` (int `1`) and then the result of
`FindTextureSlot` — which is `-1` when the tag is unregistered — as the
sampler slot. -/
def SetShaderTexture (st : SceneState K) (textureTag : String) : List (Cmd K) :=
  if st.hasShader then
    [Cmd.setInt g_UseTextureName 1,
     Cmd.setSampler2D g_TextureValueName (FindTextureSlot st textureTag)]
  else []

/-- `SetTextureUVScale(u, v)`: when the shader manager is non-null, pushes
the `"UVscale"` vec2 uniform. -/
def SetTextureUVScale (st : SceneState K) (u v : K) : List (Cmd K) :=
  if st.hasShader then [Cmd.setVec2 "UVscale" u v] else []

/-- `SetShaderMaterial(materialTag)`: when `m_objectMaterials` is
non-empty, declares a local `OBJECT_MATERIAL material` — whose
indeterminate initial contents the parameter `material0` stands for —
calls `FindMaterial`, and on a `true` return pushes the three material
uniforms from the local. No null check is made on the shader manager. -/
def SetShaderMaterial (st : SceneState K) (material0 : OBJECT_MATERIAL K)
    (materialTag : String) : List (Cmd K) :=
  if 0 < st.objectMaterials.length then
    let result := FindMaterial st materialTag material0
    if result.1 then
      [Cmd.setVec3 "material.diffuseColor" result.2.diffuseColor,
       Cmd.setVec3 "material.specularColor" result.2.specularColor,
       Cmd.setFloat "material.shininess" result.2.shininess]
    else []
  else []

end Facade

/-! ## Scene script -/

section Scene

variable {K : Type} [Field K]

/-- One statement of a method body in the state-passing embedding: it may
read and replace the `SceneManager` state and appends the commands it
issues. -/
abbrev SceneStep (K : Type) := SceneState K → SceneState K × List (Cmd K)

/-- A call that only reads the state and issues commands. -/
def emitStep (f : SceneState K → List (Cmd K)) : SceneStep K :=
  fun st => (st, f st)

/-- Runs statements in order, threading state and concatenating traces. -/
def runSteps (steps : List (SceneStep K)) (st : SceneState K) :
    SceneState K × List (Cmd K) :=
  steps.foldl (fun acc step =>
    let r := step acc.1
    (r.1, acc.2 ++ r.2)) (st, [])

/-- The statements of `RenderScene()`, in source order: for each of the 40
scene objects a `SetTransformations` with the literal scale / rotation /
position, a `SetShaderColor`, optionally `SetShaderTexture` and
`SetShaderMaterial`, then the mesh draw calls. `material0` stands for the
indeterminate contents of the local `OBJECT_MATERIAL` that
`SetShaderMaterial` declares on each call. -/
def renderSceneSteps (c s q : K → K) (piK : K) (material0 : OBJECT_MATERIAL K) :
    List (SceneStep K) :=
  [emitStep fun st => SetTransformations c s q piK st ⟨(20 : K), (1 : K), (10 : K)⟩ (0 : K) (0 : K) (0 : K) ⟨(0 : K), (0 : K), (0 : K)⟩,
   emitStep fun st => SetShaderColor st (753/1000 : K) (753/1000 : K) (753/1000 : K) (1 : K),
   emitStep fun st => SetShaderTexture st "floor",
   emitStep fun st => SetShaderMaterial st material0 "wood",
   emitStep fun _ => [Cmd.drawPlane],
   emitStep fun st => SetTransformations c s q piK st ⟨(20 : K), (1 : K), (10 : K)⟩ (90 : K) (0 : K) (0 : K) ⟨(0 : K), (9 : K), (-10 : K)⟩,
   emitStep fun st => SetShaderColor st (827/1000 : K) (827/1000 : K) (827/1000 : K) (1 : K),
   emitStep fun st => SetShaderTexture st "wall",
   emitStep fun st => SetShaderMaterial st material0 "wood",
   emitStep fun _ => [Cmd.drawPlane],
   emitStep fun st => SetTransformations c s q piK st ⟨(5 : K), (1/4 : K), (20 : K)⟩ (0 : K) (90 : K) (0 : K) ⟨(0 : K), (2 : K), (-5 : K)⟩,
   emitStep fun st => SetShaderColor st (1 : K) (1 : K) (1 : K) (1 : K),
   emitStep fun _ => [Cmd.drawBox],
   emitStep fun _ => [Cmd.drawBoxLines],
   emitStep fun st => SetTransformations c s q piK st ⟨(1/5 : K), (2 : K), (1/5 : K)⟩ (0 : K) (90 : K) (0 : K) ⟨(-9 : K), (0 : K), (-7 : K)⟩,
   emitStep fun st => SetShaderColor st (1 : K) (1 : K) (1 : K) (1 : K),
   emitStep fun _ => [Cmd.drawCylinder],
   emitStep fun _ => [Cmd.drawCylinderLines],
   emitStep fun st => SetTransformations c s q piK st ⟨(1/5 : K), (2 : K), (1/5 : K)⟩ (0 : K) (90 : K) (0 : K) ⟨(-9 : K), (0 : K), (-3 : K)⟩,
   emitStep fun st => SetShaderColor st (1 : K) (1 : K) (1 : K) (1 : K),
   emitStep fun _ => [Cmd.drawCylinder],
   emitStep fun _ => [Cmd.drawCylinderLines],
   emitStep fun st => SetTransformations c s q piK st ⟨(1/5 : K), (2 : K), (1/5 : K)⟩ (0 : K) (90 : K) (0 : K) ⟨(9 : K), (0 : K), (-7 : K)⟩,
   emitStep fun st => SetShaderColor st (1 : K) (1 : K) (1 : K) (1 : K),
   emitStep fun _ => [Cmd.drawCylinder],
   emitStep fun _ => [Cmd.drawCylinderLines],
   emitStep fun st => SetTransformations c s q piK st ⟨(1/5 : K), (2 : K), (1/5 : K)⟩ (0 : K) (90 : K) (0 : K) ⟨(9 : K), (0 : K), (-3 : K)⟩,
   emitStep fun st => SetShaderColor st (1 : K) (1 : K) (1 : K) (1 : K),
   emitStep fun _ => [Cmd.drawCylinder],
   emitStep fun _ => [Cmd.drawCylinderLines],
   emitStep fun st => SetTransformations c s q piK st ⟨(13/2 : K), (1/4 : K), (5 : K)⟩ (90 : K) (0 : K) (0 : K) ⟨(-(25/4) : K), (9/2 : K), (-7 : K)⟩,
   emitStep fun st => SetShaderColor st (663/1000 : K) (663/1000 : K) (663/1000 : K) (1 : K),
   emitStep fun st => SetShaderTexture st "couch",
   emitStep fun st => SetShaderMaterial st material0 "fabric",
   emitStep fun _ => [Cmd.drawBox],
   emitStep fun _ => [Cmd.drawBoxLines],
   emitStep fun st => SetTransformations c s q piK st ⟨(13/2 : K), (1/4 : K), (5 : K)⟩ (90 : K) (0 : K) (0 : K) ⟨(1/4 : K), (9/2 : K), (-7 : K)⟩,
   emitStep fun st => SetShaderColor st (663/1000 : K) (663/1000 : K) (663/1000 : K) (1 : K),
   emitStep fun st => SetShaderTexture st "couch",
   emitStep fun st => SetShaderMaterial st material0 "fabric",
   emitStep fun _ => [Cmd.drawBox],
   emitStep fun _ => [Cmd.drawBoxLines],
   emitStep fun st => SetTransformations c s q piK st ⟨(6 : K), (1/4 : K), (5 : K)⟩ (90 : K) (0 : K) (0 : K) ⟨(13/2 : K), (9/2 : K), (-7 : K)⟩,
   emitStep fun st => SetShaderColor st (663/1000 : K) (663/1000 : K) (663/1000 : K) (1 : K),
   emitStep fun st => SetShaderTexture st "couch",
   emitStep fun st => SetShaderMaterial st material0 "fabric",
   emitStep fun _ => [Cmd.drawBox],
   emitStep fun _ => [Cmd.drawBoxLines],
   emitStep fun st => SetTransformations c s q piK st ⟨(13/2 : K), (1/2 : K), (9/2 : K)⟩ (0 : K) (0 : K) (0 : K) ⟨(-(25/4) : K), (9/4 : K), (-5 : K)⟩,
   emitStep fun st => SetShaderColor st (663/1000 : K) (663/1000 : K) (663/1000 : K) (1 : K),
   emitStep fun st => SetShaderTexture st "couch",
   emitStep fun st => SetShaderMaterial st material0 "fabric",
   emitStep fun _ => [Cmd.drawBox],
   emitStep fun _ => [Cmd.drawBoxLines],
   emitStep fun st => SetTransformations c s q piK st ⟨(13/2 : K), (1/2 : K), (9/2 : K)⟩ (0 : K) (0 : K) (0 : K) ⟨(1/4 : K), (9/4 : K), (-5 : K)⟩,
   emitStep fun st => SetShaderColor st (663/1000 : K) (663/1000 : K) (663/1000 : K) (1 : K),
   emitStep fun st => SetShaderTexture st "couch",
   emitStep fun st => SetShaderMaterial st material0 "fabric",
   emitStep fun _ => [Cmd.drawBox],
   emitStep fun _ => [Cmd.drawBoxLines],
   emitStep fun st => SetTransformations c s q piK st ⟨(13/2 : K), (1/2 : K), (9/2 : K)⟩ (0 : K) (0 : K) (0 : K) ⟨(25/4 : K), (9/4 : K), (-5 : K)⟩,
   emitStep fun st => SetShaderColor st (663/1000 : K) (663/1000 : K) (663/1000 : K) (1 : K),
   emitStep fun st => SetShaderTexture st "couch",
   emitStep fun st => SetShaderMaterial st material0 "fabric",
   emitStep fun _ => [Cmd.drawBox],
   emitStep fun _ => [Cmd.drawBoxLines],
   emitStep fun st => SetTransformations c s q piK st ⟨(13/2 : K), (1/2 : K), (9/2 : K)⟩ (0 : K) (0 : K) (0 : K) ⟨(-15 : K), (13/4 : K), (-5 : K)⟩,
   emitStep fun st => SetShaderColor st (109/200 : K) (271/1000 : K) (3/40 : K) (1 : K),
   emitStep fun st => SetShaderTexture st "floor",
   emitStep fun st => SetShaderMaterial st material0 "wood",
   emitStep fun _ => [Cmd.drawBox],
   emitStep fun _ => [Cmd.drawBoxLines],
   emitStep fun st => SetTransformations c s q piK st ⟨(1/2 : K), (3 : K), (1/2 : K)⟩ (0 : K) (0 : K) (0 : K) ⟨(-18 : K), (3/2 : K), (-7 : K)⟩,
   emitStep fun st => SetShaderColor st (1 : K) (1 : K) (1 : K) (1 : K),
   emitStep fun _ => [Cmd.drawBox],
   emitStep fun _ => [Cmd.drawBoxLines],
   emitStep fun st => SetTransformations c s q piK st ⟨(1/2 : K), (3 : K), (1/2 : K)⟩ (0 : K) (0 : K) (0 : K) ⟨(-12 : K), (3/2 : K), (-7 : K)⟩,
   emitStep fun st => SetShaderColor st (1 : K) (1 : K) (1 : K) (1 : K),
   emitStep fun _ => [Cmd.drawBox],
   emitStep fun _ => [Cmd.drawBoxLines],
   emitStep fun st => SetTransformations c s q piK st ⟨(1/2 : K), (3 : K), (1/2 : K)⟩ (0 : K) (0 : K) (0 : K) ⟨(-18 : K), (3/2 : K), (-7 : K)⟩,
   emitStep fun st => SetShaderColor st (1 : K) (1 : K) (1 : K) (1 : K),
   emitStep fun _ => [Cmd.drawBox],
   emitStep fun _ => [Cmd.drawBoxLines],
   emitStep fun st => SetTransformations c s q piK st ⟨(11/2 : K), (1/2 : K), (1/2 : K)⟩ (0 : K) (0 : K) (0 : K) ⟨(-15 : K), (1/4 : K), (-7 : K)⟩,
   emitStep fun st => SetShaderColor st (1 : K) (1 : K) (1 : K) (1 : K),
   emitStep fun _ => [Cmd.drawBox],
   emitStep fun _ => [Cmd.drawBoxLines],
   emitStep fun st => SetTransformations c s q piK st ⟨(1/2 : K), (1/2 : K), (9/2 : K)⟩ (0 : K) (0 : K) (0 : K) ⟨(-18 : K), (1/4 : K), (-5 : K)⟩,
   emitStep fun st => SetShaderColor st (1 : K) (1 : K) (1 : K) (1 : K),
   emitStep fun _ => [Cmd.drawBox],
   emitStep fun _ => [Cmd.drawBoxLines],
   emitStep fun st => SetTransformations c s q piK st ⟨(1/2 : K), (1/2 : K), (9/2 : K)⟩ (0 : K) (0 : K) (0 : K) ⟨(-12 : K), (1/4 : K), (-5 : K)⟩,
   emitStep fun st => SetShaderColor st (1 : K) (1 : K) (1 : K) (1 : K),
   emitStep fun _ => [Cmd.drawBox],
   emitStep fun _ => [Cmd.drawBoxLines],
   emitStep fun st => SetTransformations c s q piK st ⟨(11/2 : K), (1/2 : K), (1/2 : K)⟩ (0 : K) (0 : K) (0 : K) ⟨(-15 : K), (1/4 : K), (-3 : K)⟩,
   emitStep fun st => SetShaderColor st (1 : K) (1 : K) (1 : K) (1 : K),
   emitStep fun _ => [Cmd.drawBox],
   emitStep fun _ => [Cmd.drawBoxLines],
   emitStep fun st => SetTransformations c s q piK st ⟨(3/2 : K), (2/25 : K), (3/2 : K)⟩ (0 : K) (0 : K) (0 : K) ⟨(-15 : K), (71/20 : K), (-(23/4) : K)⟩,
   emitStep fun st => SetShaderColor st (49/125 : K) (73/125 : K) (929/1000 : K) (1 : K),
   emitStep fun _ => [Cmd.drawBox],
   emitStep fun _ => [Cmd.drawBoxLines],
   emitStep fun st => SetTransformations c s q piK st ⟨(3/20 : K), (3 : K), (3/20 : K)⟩ (0 : K) (0 : K) (0 : K) ⟨(-15 : K), (5 : K), (-(23/4) : K)⟩,
   emitStep fun st => SetShaderColor st (49/125 : K) (73/125 : K) (929/1000 : K) (1 : K),
   emitStep fun _ => [Cmd.drawBox],
   emitStep fun _ => [Cmd.drawBoxLines],
   emitStep fun st => SetTransformations c s q piK st ⟨(3/4 : K), (-(3/2) : K), (3/4 : K)⟩ (0 : K) (0 : K) (0 : K) ⟨(-15 : K), (38/5 : K), (-(23/4) : K)⟩,
   emitStep fun st => SetShaderColor st (49/125 : K) (73/125 : K) (929/1000 : K) (1 : K),
   emitStep fun _ => [Cmd.drawHalfSphere],
   emitStep fun _ => [Cmd.drawHalfSphereLines],
   emitStep fun st => SetTransformations c s q piK st ⟨(3/5 : K), (1/2 : K), (3/5 : K)⟩ (0 : K) (0 : K) (0 : K) ⟨(-15 : K), (37/5 : K), (-(23/4) : K)⟩,
   emitStep fun st => SetShaderColor st (1 : K) (1 : K) (439/500 : K) (1 : K),
   emitStep fun _ => [Cmd.drawHalfSphere],
   emitStep fun _ => [Cmd.drawHalfSphereLines],
   emitStep fun st => SetTransformations c s q piK st ⟨(1/4 : K), (1/100 : K), (1/20 : K)⟩ (0 : K) (0 : K) (0 : K) ⟨(-15 : K), (18/5 : K), (-(21/4) : K)⟩,
   emitStep fun st => SetShaderColor st (753/1000 : K) (753/1000 : K) (753/1000 : K) (1 : K),
   emitStep fun _ => [Cmd.drawBox],
   emitStep fun _ => [Cmd.drawBoxLines],
   emitStep fun st => SetTransformations c s q piK st ⟨(6/5 : K), (-(4/5) : K), (6/5 : K)⟩ (0 : K) (0 : K) (0 : K) ⟨(-17 : K), (43/10 : K), (-(19/5) : K)⟩,
   emitStep fun st => SetShaderColor st (753/1000 : K) (753/1000 : K) (753/1000 : K) (1 : K),
   emitStep fun _ => [Cmd.drawHalfSphere],
   emitStep fun _ => [Cmd.drawHalfSphereLines],
   emitStep fun st => SetTransformations c s q piK st ⟨(13/2 : K), (1/2 : K), (9/2 : K)⟩ (0 : K) (0 : K) (0 : K) ⟨(15 : K), (13/4 : K), (-5 : K)⟩,
   emitStep fun st => SetShaderColor st (109/200 : K) (271/1000 : K) (3/40 : K) (1 : K),
   emitStep fun st => SetShaderTexture st "floor",
   emitStep fun st => SetShaderMaterial st material0 "wood",
   emitStep fun _ => [Cmd.drawBox],
   emitStep fun _ => [Cmd.drawBoxLines],
   emitStep fun st => SetTransformations c s q piK st ⟨(1/2 : K), (3 : K), (1/2 : K)⟩ (0 : K) (0 : K) (0 : K) ⟨(18 : K), (3/2 : K), (-7 : K)⟩,
   emitStep fun st => SetShaderColor st (1 : K) (1 : K) (1 : K) (1 : K),
   emitStep fun _ => [Cmd.drawBox],
   emitStep fun _ => [Cmd.drawBoxLines],
   emitStep fun st => SetTransformations c s q piK st ⟨(1/2 : K), (3 : K), (1/2 : K)⟩ (0 : K) (0 : K) (0 : K) ⟨(12 : K), (3/2 : K), (-7 : K)⟩,
   emitStep fun st => SetShaderColor st (1 : K) (1 : K) (1 : K) (1 : K),
   emitStep fun _ => [Cmd.drawBox],
   emitStep fun _ => [Cmd.drawBoxLines],
   emitStep fun st => SetTransformations c s q piK st ⟨(1/2 : K), (3 : K), (1/2 : K)⟩ (0 : K) (0 : K) (0 : K) ⟨(18 : K), (3/2 : K), (-7 : K)⟩,
   emitStep fun st => SetShaderColor st (1 : K) (1 : K) (1 : K) (1 : K),
   emitStep fun _ => [Cmd.drawBox],
   emitStep fun _ => [Cmd.drawBoxLines],
   emitStep fun st => SetTransformations c s q piK st ⟨(11/2 : K), (1/2 : K), (1/2 : K)⟩ (0 : K) (0 : K) (0 : K) ⟨(15 : K), (1/4 : K), (-7 : K)⟩,
   emitStep fun st => SetShaderColor st (1 : K) (1 : K) (1 : K) (1 : K),
   emitStep fun _ => [Cmd.drawBox],
   emitStep fun _ => [Cmd.drawBoxLines],
   emitStep fun st => SetTransformations c s q piK st ⟨(1/2 : K), (1/2 : K), (9/2 : K)⟩ (0 : K) (0 : K) (0 : K) ⟨(18 : K), (1/4 : K), (-5 : K)⟩,
   emitStep fun st => SetShaderColor st (1 : K) (1 : K) (1 : K) (1 : K),
   emitStep fun _ => [Cmd.drawBox],
   emitStep fun _ => [Cmd.drawBoxLines],
   emitStep fun st => SetTransformations c s q piK st ⟨(1/2 : K), (1/2 : K), (9/2 : K)⟩ (0 : K) (0 : K) (0 : K) ⟨(12 : K), (1/4 : K), (-5 : K)⟩,
   emitStep fun st => SetShaderColor st (1 : K) (1 : K) (1 : K) (1 : K),
   emitStep fun _ => [Cmd.drawBox],
   emitStep fun _ => [Cmd.drawBoxLines],
   emitStep fun st => SetTransformations c s q piK st ⟨(11/2 : K), (1/2 : K), (1/2 : K)⟩ (0 : K) (0 : K) (0 : K) ⟨(15 : K), (1/4 : K), (-3 : K)⟩,
   emitStep fun st => SetShaderColor st (1 : K) (1 : K) (1 : K) (1 : K),
   emitStep fun _ => [Cmd.drawBox],
   emitStep fun _ => [Cmd.drawBoxLines],
   emitStep fun st => SetTransformations c s q piK st ⟨(3/2 : K), (2/25 : K), (3/2 : K)⟩ (0 : K) (0 : K) (0 : K) ⟨(15 : K), (71/20 : K), (-(23/4) : K)⟩,
   emitStep fun st => SetShaderColor st (49/125 : K) (73/125 : K) (929/1000 : K) (1 : K),
   emitStep fun _ => [Cmd.drawBox],
   emitStep fun _ => [Cmd.drawBoxLines],
   emitStep fun st => SetTransformations c s q piK st ⟨(3/20 : K), (3 : K), (3/20 : K)⟩ (0 : K) (0 : K) (0 : K) ⟨(15 : K), (5 : K), (-(23/4) : K)⟩,
   emitStep fun st => SetShaderColor st (49/125 : K) (73/125 : K) (929/1000 : K) (1 : K),
   emitStep fun _ => [Cmd.drawBox],
   emitStep fun _ => [Cmd.drawBoxLines],
   emitStep fun st => SetTransformations c s q piK st ⟨(3/4 : K), (-(3/2) : K), (3/4 : K)⟩ (0 : K) (0 : K) (0 : K) ⟨(15 : K), (38/5 : K), (-(23/4) : K)⟩,
   emitStep fun st => SetShaderColor st (49/125 : K) (73/125 : K) (929/1000 : K) (1 : K),
   emitStep fun _ => [Cmd.drawHalfSphere],
   emitStep fun _ => [Cmd.drawHalfSphereLines],
   emitStep fun st => SetTransformations c s q piK st ⟨(3/5 : K), (1/2 : K), (3/5 : K)⟩ (0 : K) (0 : K) (0 : K) ⟨(15 : K), (37/5 : K), (-(23/4) : K)⟩,
   emitStep fun st => SetShaderColor st (1 : K) (1 : K) (439/500 : K) (1 : K),
   emitStep fun _ => [Cmd.drawHalfSphere],
   emitStep fun _ => [Cmd.drawHalfSphereLines],
   emitStep fun st => SetTransformations c s q piK st ⟨(1/4 : K), (1/100 : K), (1/20 : K)⟩ (0 : K) (0 : K) (0 : K) ⟨(15 : K), (18/5 : K), (-(21/4) : K)⟩,
   emitStep fun st => SetShaderColor st (753/1000 : K) (753/1000 : K) (753/1000 : K) (1 : K),
   emitStep fun _ => [Cmd.drawBox],
   emitStep fun _ => [Cmd.drawBoxLines]]

/-- `RenderScene()`: executes the scene script on the current state. -/
def RenderScene (c s q : K → K) (piK : K) (material0 : OBJECT_MATERIAL K)
    (st : SceneState K) : SceneState K × List (Cmd K) :=
  runSteps (renderSceneSteps c s q piK material0) st

end Scene

section GlmLemmas

variable {K : Type} [Field K]

lemma glmNormalize_unitX (q : K → K) (hq : q 1 = 1) :
    glmNormalize q (⟨1, 0, 0⟩ : Vec3 K) = ⟨1, 0, 0⟩ := by
  simp [glmNormalize, dotSelf, hq]

lemma glmNormalize_unitY (q : K → K) (hq : q 1 = 1) :
    glmNormalize q (⟨0, 1, 0⟩ : Vec3 K) = ⟨0, 1, 0⟩ := by
  simp [glmNormalize, dotSelf, hq]

lemma glmNormalize_unitZ (q : K → K) (hq : q 1 = 1) :
    glmNormalize q (⟨0, 0, 1⟩ : Vec3 K) = ⟨0, 0, 1⟩ := by
  simp [glmNormalize, dotSelf, hq]

lemma glmRotate_unitX (c s q : K → K) (hq : q 1 = 1) (angle : K) :
    glmRotate c s q angle (⟨1, 0, 0⟩ : Vec3 K) = specRotateX c s angle := by
  unfold glmRotate specRotateX
  rw [glmNormalize_unitX q hq]
  ext i j
  fin_cases i <;> fin_cases j <;> simp

lemma glmRotate_unitY (c s q : K → K) (hq : q 1 = 1) (angle : K) :
    glmRotate c s q angle (⟨0, 1, 0⟩ : Vec3 K) = specRotateY c s angle := by
  unfold glmRotate specRotateY
  rw [glmNormalize_unitY q hq]
  ext i j
  fin_cases i <;> fin_cases j <;> simp

lemma glmRotate_unitZ (c s q : K → K) (hq : q 1 = 1) (angle : K) :
    glmRotate c s q angle (⟨0, 0, 1⟩ : Vec3 K) = specRotateZ c s angle := by
  unfold glmRotate specRotateZ
  rw [glmNormalize_unitZ q hq]
  ext i j
  fin_cases i <;> fin_cases j <;> simp

lemma glmTranslate_eq_spec (v : Vec3 K) : glmTranslate v = specTranslate v := rfl

lemma glmScale_eq_spec (v : Vec3 K) : glmScale v = specScale v := rfl

end GlmLemmas

section RegistryLemmas

variable {K : Type}

lemma findMaterialLoop_eq_find? (tag : String) (l : List (OBJECT_MATERIAL K))
    (material : OBJECT_MATERIAL K) :
    findMaterialLoop tag l material =
      match l.find? (fun e => e.tag == tag) with
      | some e => { material with
                      diffuseColor := e.diffuseColor
                      specularColor := e.specularColor
                      shininess := e.shininess }
      | none => material := by
  induction l with
  | nil => rfl
  | cons a l ih =>
    by_cases h : a.tag = tag
    · simp [findMaterialLoop, h, List.find?_cons_of_pos]
    · rw [findMaterialLoop, if_neg h, ih, List.find?_cons_of_neg]
      simp [h]

lemma findTextureIDLoop_eq_find? (tag : String) (l : List TextureEntry) :
    findTextureIDLoop tag l =
      match l.find? (fun e => e.tag == tag) with
      | some e => (e.ID : Int)
      | none => -1 := by
  induction l with
  | nil => rfl
  | cons a l ih =>
    by_cases h : a.tag = tag
    · simp [findTextureIDLoop, h, List.find?_cons_of_pos]
    · rw [findTextureIDLoop, if_neg h, ih, List.find?_cons_of_neg]
      simp [h]

lemma findTextureSlotLoop_of_absent (tag : String) (l : List TextureEntry)
    (habs : ∀ e ∈ l, e.tag ≠ tag) : ∀ i : Nat, findTextureSlotLoop tag l i = -1 := by
  induction l with
  | nil => intro i; rfl
  | cons a l ih =>
    intro i
    rw [findTextureSlotLoop, if_neg (habs a (List.mem_cons_self a l))]
    exact ih (fun e he => habs e (List.mem_cons_of_mem a he)) (i + 1)

lemma bindGLTexturesLoop_eq_enumFrom (K : Type) (l : List TextureEntry) :
    ∀ i : Nat, bindGLTexturesLoop K i l =
      (l.enumFrom i).flatMap
        (fun p => [Cmd.activeTexture p.1, Cmd.bindTexture2D p.2.ID]) := by
  induction l with
  | nil => intro i; rfl
  | cons a l ih =>
    intro i
    rw [bindGLTexturesLoop, List.enumFrom_cons, List.flatMap_cons, ih (i + 1)]
    rfl

lemma findTextureSlotLoop_eq_findIdx? (tag : String) (l : List TextureEntry) :
    ∀ i : Nat, findTextureSlotLoop tag l i =
      match l.findIdx? (fun e => e.tag == tag) i with
      | some j => (j : Int)
      | none => -1 := by
  induction l with
  | nil => intro i; rfl
  | cons a l ih =>
    intro i
    by_cases h : a.tag = tag
    · simp [findTextureSlotLoop, h, List.findIdx?_cons]
    · rw [findTextureSlotLoop, if_neg h, ih (i + 1), List.findIdx?_cons]
      simp [h]

end RegistryLemmas

/-! ## Claim theorems -/

section Claims

variable {K : Type}

/-- Claim C1: for every scale vector `S`, rotation angles in degrees and
translation vector `T`, `SetTransformations` pushes as the model matrix
exactly `Translate(T) * RotateZ(Zdeg) * RotateY(Ydeg) * RotateX(Xdeg) *
Scale(S)`, the angles being converted from degrees to radians before the
rotation matrices are built (stated over any field with cos, sin, sqrt
abstracted as `c`, `s`, `q`; `q 1 = 1` is the one fact about sqrt glm's
axis normalization needs, and the shader-manager reference is non-null so
that the push happens). -/
theorem c1_setTransformations_pushes_translate_rz_ry_rx_scale
    [Field K] (c s q : K → K) (piK : K) (hq : q 1 = 1)
    (st : SceneState K) (hsh : st.hasShader = true)
    (scaleXYZ positionXYZ : Vec3 K) (xdeg ydeg zdeg : K) :
    SetTransformations c s q piK st scaleXYZ xdeg ydeg zdeg positionXYZ =
      [Cmd.setMat4 g_ModelName
        (specTranslate positionXYZ *
         specRotateZ c s (radians piK zdeg) *
         specRotateY c s (radians piK ydeg) *
         specRotateX c s (radians piK xdeg) *
         specScale scaleXYZ)] := by
  simp only [SetTransformations, hsh, if_true, setTransformationsMatrix]
  rw [glmRotate_unitX c s q hq, glmRotate_unitY c s q hq, glmRotate_unitZ c s q hq,
      glmTranslate_eq_spec, glmScale_eq_spec]

/-- Witness for C1 at a concrete input over `ℚ`, with `q` the identity
(so `q 1 = 1`) and a registry-free state whose shader reference is live. -/
theorem c1_witness :
    (fun a : ℚ => a) 1 = 1 ∧
    (SceneState.mk [] [] true : SceneState ℚ).hasShader = true ∧
    SetTransformations (fun a : ℚ => a) (fun a => a) (fun a => a) 3
        (SceneState.mk [] [] true) ⟨2, 1, 1⟩ 0 90 0 ⟨1, 0, 0⟩ =
      [Cmd.setMat4 g_ModelName
        (specTranslate ⟨1, 0, 0⟩ *
         specRotateZ (fun a : ℚ => a) (fun a => a) (radians 3 0) *
         specRotateY (fun a : ℚ => a) (fun a => a) (radians 3 90) *
         specRotateX (fun a : ℚ => a) (fun a => a) (radians 3 0) *
         specScale ⟨2, 1, 1⟩)] :=
  ⟨rfl, rfl,
    c1_setTransformations_pushes_translate_rz_ry_rx_scale
      (fun a : ℚ => a) (fun a => a) (fun a => a) 3 rfl
      (SceneState.mk [] [] true) rfl ⟨2, 1, 1⟩ ⟨1, 0, 0⟩ 0 90 0⟩

/-- Claim C2: `FindMaterial` on an empty registry returns `false` for every
tag; on a non-empty registry it returns `true`, leaving the caller-supplied
output record unchanged when no entry's tag matches, and copying the first
matching entry's diffuse color, specular color and shininess into it when
one does. -/
theorem c2_findMaterial_empty_vs_missing
    (st : SceneState K) (tag : String) (material : OBJECT_MATERIAL K) :
    FindMaterial st tag material =
      match st.objectMaterials with
      | [] => (false, material)
      | _ :: _ =>
        (true,
          match st.objectMaterials.find? (fun e => e.tag == tag) with
          | some e => { material with
                          diffuseColor := e.diffuseColor
                          specularColor := e.specularColor
                          shininess := e.shininess }
          | none => material) := by
  unfold FindMaterial
  cases st.objectMaterials with
  | nil => simp
  | cons a l => simp [findMaterialLoop_eq_find?]

/-- Claim C10: when the shader-manager reference is null, each of
`SetTransformations`, `SetShaderColor`, `SetShaderTexture` and
`SetTextureUVScale` pushes no uniform value and returns normally. -/
theorem c10_null_shader_pushes_nothing
    [Field K] (c s q : K → K) (piK : K) (st : SceneState K) (hns : st.hasShader = false)
    (scaleXYZ positionXYZ : Vec3 K) (xdeg ydeg zdeg red green blue alpha u v : K)
    (textureTag : String) :
    SetTransformations c s q piK st scaleXYZ xdeg ydeg zdeg positionXYZ = [] ∧
    SetShaderColor st red green blue alpha = [] ∧
    SetShaderTexture st textureTag = [] ∧
    SetTextureUVScale st u v = [] := by
  refine ⟨?_, ?_, ?_, ?_⟩ <;>
    simp [SetTransformations, SetShaderColor, SetShaderTexture, SetTextureUVScale, hns]

/-- Witness for C10: a state over `ℚ` whose shader reference is null. -/
theorem c10_witness :
    (SceneState.mk [] [] false : SceneState ℚ).hasShader = false ∧
    (SetTransformations (fun a : ℚ => a) (fun a => a) (fun a => a) 3
        (SceneState.mk [] [] false) ⟨1, 1, 1⟩ 0 0 0 ⟨0, 0, 0⟩ = [] ∧
     SetShaderColor (SceneState.mk [] [] false : SceneState ℚ) 1 0 0 1 = [] ∧
     SetShaderTexture (SceneState.mk [] [] false : SceneState ℚ) "floor" = [] ∧
     SetTextureUVScale (SceneState.mk [] [] false : SceneState ℚ) 1 1 = []) :=
  ⟨rfl,
    c10_null_shader_pushes_nothing (fun a : ℚ => a) (fun a => a) (fun a => a) 3
      (SceneState.mk [] [] false) rfl ⟨1, 1, 1⟩ ⟨0, 0, 0⟩ 0 0 0 1 0 0 1 1 1 "floor"⟩

/-- Claim C3: for a tag absent from a non-empty material registry,
`SetShaderMaterial` still pushes the diffuse color, specular color and
shininess uniforms, and the pushed values are the stale contents of its
uninitialized local record (`material0`, universally quantified) rather
than values from any registry entry, and no error is signalled. -/
theorem c3_setShaderMaterial_missing_tag_pushes_stale
    (st : SceneState K) (material0 : OBJECT_MATERIAL K) (tag : String)
    (hne : st.objectMaterials ≠ [])
    (habs : ∀ e ∈ st.objectMaterials, e.tag ≠ tag) :
    SetShaderMaterial st material0 tag =
      [Cmd.setVec3 "material.diffuseColor" material0.diffuseColor,
       Cmd.setVec3 "material.specularColor" material0.specularColor,
       Cmd.setFloat "material.shininess" material0.shininess] := by
  have hlen : 0 < st.objectMaterials.length := List.length_pos.mpr hne
  have hnone : st.objectMaterials.find? (fun e => e.tag == tag) = none := by
    rw [List.find?_eq_none]
    intro e he
    simpa using habs e he
  simp [SetShaderMaterial, FindMaterial, hlen, Nat.pos_iff_ne_zero.mp hlen,
        findMaterialLoop_eq_find?, hnone]

/-- Witness for C3: the registry holds only a `"wood"` entry and the looked
up tag is `"marble"`; the pushed values are those of the arbitrary initial
record. -/
theorem c3_witness :
    (SceneState.mk [] [⟨⟨1, 2, 3⟩, ⟨4, 5, 6⟩, 7, "wood"⟩] true : SceneState ℚ).objectMaterials ≠ [] ∧
    (∀ e ∈ (SceneState.mk [] [⟨⟨1, 2, 3⟩, ⟨4, 5, 6⟩, 7, "wood"⟩] true : SceneState ℚ).objectMaterials,
      e.tag ≠ "marble") ∧
    SetShaderMaterial (SceneState.mk [] [⟨⟨1, 2, 3⟩, ⟨4, 5, 6⟩, 7, "wood"⟩] true : SceneState ℚ)
        ⟨⟨8, 9, 10⟩, ⟨11, 12, 13⟩, 14, "stale"⟩ "marble" =
      [Cmd.setVec3 "material.diffuseColor" ⟨8, 9, 10⟩,
       Cmd.setVec3 "material.specularColor" ⟨11, 12, 13⟩,
       Cmd.setFloat "material.shininess" 14] :=
  ⟨by decide, by decide,
    c3_setShaderMaterial_missing_tag_pushes_stale
      (SceneState.mk [] [⟨⟨1, 2, 3⟩, ⟨4, 5, 6⟩, 7, "wood"⟩] true)
      ⟨⟨8, 9, 10⟩, ⟨11, 12, 13⟩, 14, "stale"⟩ "marble" (by decide) (by decide)⟩

/-- Claim C5: `CreateGLTexture` returns failure whenever the image cannot
be decoded or decodes to a channel count other than 3 or 4, and in every
failure case the texture registry and its entry count are unchanged. -/
theorem c5_createGLTexture_failure_registers_nothing
    (st : SceneState K) (image : Option ImageData) (textureID : Nat) (tag : String) :
    ((image = none ∨ ∃ d, image = some d ∧ d.colorChannels ≠ 3 ∧ d.colorChannels ≠ 4) →
      CreateGLTexture st image textureID tag = (false, st)) ∧
    ((CreateGLTexture st image textureID tag).1 = false →
      (CreateGLTexture st image textureID tag).2 = st ∧
      (CreateGLTexture st image textureID tag).2.textureIDs.length
        = st.textureIDs.length) := by
  constructor
  · rintro (rfl | ⟨d, rfl, h3, h4⟩)
    · rfl
    · simp [CreateGLTexture, h3, h4]
  · cases image with
    | none => intro _; exact ⟨rfl, rfl⟩
    | some d =>
      by_cases h3 : d.colorChannels = 3
      · simp [CreateGLTexture, h3]
      · by_cases h4 : d.colorChannels = 4
        · simp [CreateGLTexture, h3, h4]
        · simp [CreateGLTexture, h3, h4]

/-- Witness for C5: a 1-channel (grayscale) decode fails and leaves the
registry untouched. -/
theorem c5_witness :
    (some (ImageData.mk 2 2 1) = none ∨
      ∃ d, some (ImageData.mk 2 2 1) = some d ∧ d.colorChannels ≠ 3 ∧ d.colorChannels ≠ 4) ∧
    CreateGLTexture (SceneState.mk [⟨"floor", 4⟩] [] true : SceneState ℚ)
        (some (ImageData.mk 2 2 1)) 5 "gray"
      = (false, SceneState.mk [⟨"floor", 4⟩] [] true) :=
  ⟨Or.inr ⟨ImageData.mk 2 2 1, rfl, by decide, by decide⟩,
    (c5_createGLTexture_failure_registers_nothing
        (SceneState.mk [⟨"floor", 4⟩] [] true) (some (ImageData.mk 2 2 1)) 5 "gray").1
      (Or.inr ⟨ImageData.mk 2 2 1, rfl, by decide, by decide⟩)⟩

/-- Claim C6: loading two textures under one tag yields two distinct
registry entries, and `FindTextureID` / `FindTextureSlot` return the
handle and the slot of the first entry in registration order whose tag
matches, and the sentinel `-1` when none does (`find?` / `findIdx?`
return the first match). -/
theorem c6_duplicate_tags_and_first_match_lookup
    (st : SceneState K) (tag : String) :
    (∀ d1 d2 : ImageData, ∀ id1 id2 : Nat,
      (d1.colorChannels = 3 ∨ d1.colorChannels = 4) →
      (d2.colorChannels = 3 ∨ d2.colorChannels = 4) →
      ((CreateGLTexture (CreateGLTexture st (some d1) id1 tag).2 (some d2) id2 tag).2).textureIDs
        = st.textureIDs ++ [⟨tag, id1⟩, ⟨tag, id2⟩]) ∧
    (FindTextureID st tag =
      match st.textureIDs.find? (fun e => e.tag == tag) with
      | some e => (e.ID : Int)
      | none => -1) ∧
    (FindTextureSlot st tag =
      match st.textureIDs.findIdx? (fun e => e.tag == tag) with
      | some i => (i : Int)
      | none => -1) := by
  refine ⟨?_, ?_, ?_⟩
  · rintro d1 d2 id1 id2 (h1 | h1) (h2 | h2) <;>
      simp [CreateGLTexture, h1, h2]
  · exact findTextureIDLoop_eq_find? tag st.textureIDs
  · exact findTextureSlotLoop_eq_findIdx? tag st.textureIDs 0

/-- Witness for C6: two RGB loads under tag `"couch"` append two entries,
and the lookups return the first entry's handle and slot. -/
theorem c6_witness :
    ((ImageData.mk 4 4 3).colorChannels = 3 ∨ (ImageData.mk 4 4 3).colorChannels = 4) ∧
    ((ImageData.mk 4 4 4).colorChannels = 3 ∨ (ImageData.mk 4 4 4).colorChannels = 4) ∧
    ((CreateGLTexture
        (CreateGLTexture (SceneState.mk [] [] true : SceneState ℚ)
          (some (ImageData.mk 4 4 3)) 7 "couch").2
        (some (ImageData.mk 4 4 4)) 8 "couch").2).textureIDs
      = [⟨"couch", 7⟩, ⟨"couch", 8⟩] :=
  ⟨Or.inl rfl, Or.inr rfl,
    (c6_duplicate_tags_and_first_match_lookup
        (SceneState.mk [] [] true : SceneState ℚ) "couch").1
      (ImageData.mk 4 4 3) (ImageData.mk 4 4 4) 7 8 (Or.inl rfl) (Or.inr rfl)⟩

/-- Claim C7: a successful load appends its entry at the end of the
registry, so its slot index is the number of previously registered
textures; and `BindGLTextures` issues, for the entries in registration
order, exactly one `glActiveTexture(unit = slot index)` plus
`glBindTexture(handle)` pair per entry. -/
theorem c7_slots_are_registration_order_and_bind_all
    (st : SceneState K) :
    (∀ (d : ImageData) (textureID : Nat) (tag : String),
      (d.colorChannels = 3 ∨ d.colorChannels = 4) →
      (CreateGLTexture st (some d) textureID tag).2.textureIDs
        = st.textureIDs ++ [⟨tag, textureID⟩]) ∧
    BindGLTextures st
      = st.textureIDs.enum.flatMap
          (fun p => [Cmd.activeTexture p.1, Cmd.bindTexture2D p.2.ID]) := by
  constructor
  · rintro d textureID tag (h | h) <;> simp [CreateGLTexture, h]
  · exact bindGLTexturesLoop_eq_enumFrom K st.textureIDs 0

/-- Witness for C7: an RGBA load appended to a one-entry registry lands at
index 1, and binding issues units 0 and 1 in order. -/
theorem c7_witness :
    ((ImageData.mk 4 4 4).colorChannels = 3 ∨ (ImageData.mk 4 4 4).colorChannels = 4) ∧
    (CreateGLTexture (SceneState.mk [⟨"floor", 4⟩] [] true : SceneState ℚ)
        (some (ImageData.mk 4 4 4)) 9 "wall").2.textureIDs
      = [⟨"floor", 4⟩, ⟨"wall", 9⟩] ∧
    BindGLTextures (SceneState.mk [⟨"floor", 4⟩, ⟨"wall", 9⟩] [] true : SceneState ℚ)
      = [Cmd.activeTexture 0, Cmd.bindTexture2D 4,
         Cmd.activeTexture 1, Cmd.bindTexture2D 9] :=
  ⟨Or.inr rfl,
    (c7_slots_are_registration_order_and_bind_all
        (SceneState.mk [⟨"floor", 4⟩] [] true : SceneState ℚ)).1
      (ImageData.mk 4 4 4) 9 "wall" (Or.inr rfl),
    by
      have h := (c7_slots_are_registration_order_and_bind_all
        (SceneState.mk [⟨"floor", 4⟩, ⟨"wall", 9⟩] [] true : SceneState ℚ)).2
      rw [h]
      rfl⟩

/-- Claim C8: for a tag not present in the texture registry (and a live
shader reference), `SetShaderTexture` pushes `bUseTexture = true` and the
sentinel slot `-1` as the sampler value, instead of failing or skipping
the sampler push. -/
theorem c8_setShaderTexture_missing_tag_pushes_sentinel
    (st : SceneState K) (tag : String) (hsh : st.hasShader = true)
    (habs : ∀ e ∈ st.textureIDs, e.tag ≠ tag) :
    SetShaderTexture st tag =
      [Cmd.setInt g_UseTextureName 1,
       Cmd.setSampler2D g_TextureValueName (-1)] := by
  have hslot : FindTextureSlot st tag = -1 :=
    findTextureSlotLoop_of_absent tag st.textureIDs habs 0
  simp [SetShaderTexture, hsh, hslot]

/-- Witness for C8: tag `"lamp"` is absent from a one-entry registry. -/
theorem c8_witness :
    (SceneState.mk [⟨"floor", 4⟩] [] true : SceneState ℚ).hasShader = true ∧
    (∀ e ∈ (SceneState.mk [⟨"floor", 4⟩] [] true : SceneState ℚ).textureIDs, e.tag ≠ "lamp") ∧
    SetShaderTexture (SceneState.mk [⟨"floor", 4⟩] [] true : SceneState ℚ) "lamp" =
      [Cmd.setInt g_UseTextureName 1,
       Cmd.setSampler2D g_TextureValueName (-1)] :=
  ⟨rfl, by decide,
    c8_setShaderTexture_missing_tag_pushes_sentinel
      (SceneState.mk [⟨"floor", 4⟩] [] true : SceneState ℚ) "lamp" rfl (by decide)⟩

/-- Claim C9 (code bug): `DestroyGLTextures` is documented as freeing all
used texture slots, but its loop runs `glGenTextures(1, &m_textureIDs[i].ID)`
per entry: on a registry holding handle `7` it issues one `glGenTextures`
call and no `glDeleteTextures` call at all, overwriting the stored handle
with a fresh name while GPU texture `7` is never destroyed. -/
theorem c9_destroyGLTextures_generates_instead_of_deleting :
    (DestroyGLTextures (SceneState.mk [⟨"couch", 7⟩] [] true : SceneState ℚ)
        (fun i => 100 + i)).2 = [Cmd.genTextures 1] ∧
    (∀ n : Nat,
      Cmd.deleteTextures n ∉
        (DestroyGLTextures (SceneState.mk [⟨"couch", 7⟩] [] true : SceneState ℚ)
          (fun i => 100 + i)).2) ∧
    (DestroyGLTextures (SceneState.mk [⟨"couch", 7⟩] [] true : SceneState ℚ)
        (fun i => 100 + i)).1.textureIDs = [⟨"couch", 100⟩] := by
  refine ⟨rfl, ?_, rfl⟩
  intro n
  simp [DestroyGLTextures]

set_option maxRecDepth 4000 in
/-- Claim C4: with no intervening state change, two executions of
`RenderScene` leave the `SceneManager` state untouched and issue exactly
the same ordered command sequence — every pushed transform, color,
texture slot and material value included (the camera matrices are pushed
by the view manager, outside this method). -/
theorem c4_renderScene_idempotent [Field K] (c s q : K → K) (piK : K)
    (material0 : OBJECT_MATERIAL K) (st : SceneState K) :
    (RenderScene c s q piK material0
        (RenderScene c s q piK material0 st).1).2
      = (RenderScene c s q piK material0 st).2 ∧
    (RenderScene c s q piK material0 st).1 = st := by
  have h : (RenderScene c s q piK material0 st).1 = st := rfl
  exact ⟨by rw [h], h⟩

end Claims

end SceneMgr
